import Mathlib

/-!
Verification of the health-classification engine of `relife.py`.

The core functions (`calculate_pack_specs`, `avaliar_celula_individual`,
`avaliar_pack_voltage`, and the pack-wide aggregation loop computing
`status_pack_geral_base`) are shallowly embedded below.  Python floats are
modelled as exact rationals (ℚ); Python's `None` becomes `Option ℚ`; the
f-string reason messages become constructors of an inductive `Motivo` /
`MotivoPack` carrying the interpolated numeric values, since the claims are
about which message fires, not about string formatting; the "; ".join over
a possibly-empty reason list, with its "N/A" fallback, is modelled by
`Option (List Motivo)` in `avaliar_celula_individual_retorno` (where `none`
stands for the "N/A" string).
-/

namespace ReLife

/-- Severity statuses, exactly the four labels used by the source. -/
inductive Status where
  | Bom
  | Monitorar
  | Ruim
  | Critico
deriving DecidableEq

/-- One entry of `ALL_CELL_SPECS` in the source (per-model cell data). -/
structure CellSpecs where
  NOME : String
  FABRICANTE : String
  FERRAMENTA_USO : String
  TENSAO_NOMINAL : ℚ
  TENSAO_CARGA_MAX : ℚ
  TENSAO_CORTE : ℚ
  IR_NOVA_TIPICA : ℚ
  CORRENTE_MAX_CONTINUA : ℚ
  CAPACIDADE_NOMINAL_MAH : ℚ
deriving DecidableEq

/-- `ALL_CELL_SPECS["Sony"]`. -/
def SonySpecs : CellSpecs :=
  { NOME := "Sony US18650VTC2"
    FABRICANTE := "Sony"
    FERRAMENTA_USO := "CLECO"
    TENSAO_NOMINAL := 3.70
    TENSAO_CARGA_MAX := 4.20
    TENSAO_CORTE := 2.50
    IR_NOVA_TIPICA := 16.00
    CORRENTE_MAX_CONTINUA := 30.00
    CAPACIDADE_NOMINAL_MAH := 1550 }

/-- `ALL_CELL_SPECS["Panasonic"]`. -/
def PanasonicSpecs : CellSpecs :=
  { NOME := "Panasonic UR18650RX"
    FABRICANTE := "Panasonic"
    FERRAMENTA_USO := "Bosch"
    TENSAO_NOMINAL := 3.60
    TENSAO_CARGA_MAX := 4.20
    TENSAO_CORTE := 2.75
    IR_NOVA_TIPICA := 20.00
    CORRENTE_MAX_CONTINUA := 20.00
    CAPACIDADE_NOMINAL_MAH := 1950 }

/-- The model registry `ALL_CELL_SPECS` (a dict keyed by model name). -/
def ALL_CELL_SPECS : List (String × CellSpecs) :=
  [("Sony", SonySpecs), ("Panasonic", PanasonicSpecs)]

-- Module-level thresholds of the source (model-independent).
def OCV_DIFF_LIMIAR_MONITOR : ℚ := 0.05
def OCV_DIFF_LIMIAR_RUIM : ℚ := 0.10
def OCV_ABSOLUTO_LIMIAR_RUIM : ℚ := 3.00
def OCV_ABSOLUTO_LIMIAR_CRITICO : ℚ := 2.50
def IR_LIMIAR_BOM_MAX : ℚ := 20.00
def IR_LIMIAR_MONITOR_MAX : ℚ := 30.00
def IR_LIMIAR_RUIM_MIN : ℚ := 30.00
def IR_PCT_DIFF_LIMIAR_MONITOR : ℚ := 25
def IR_PCT_DIFF_LIMIAR_RUIM : ℚ := 50

/-- Result record of `calculate_pack_specs` (a dict in the source). -/
structure PackSpecs where
  NUM_CELULAS_SERIE : ℤ
  PACK_TENSAO_MAX : ℚ
  PACK_TENSAO_NOMINAL : ℚ
  PACK_TENSAO_CORTE : ℚ
  PACK_TENSAO_LIMIAR_BOM_MIN : ℚ
  PACK_TENSAO_LIMIAR_MONITOR_MIN : ℚ
  PACK_TENSAO_LIMIAR_RUIM_MIN : ℚ
  PACK_TENSAO_LIMIAR_CRITICO_MIN : ℚ
deriving DecidableEq

/-- `calculate_pack_specs(cell_specs_individual, num_cells_series)`:
pack-level voltage thresholds derived from a cell model; `num_cells_series`
defaults to 12 at the call sites.  The source performs no validation of
`num_cells_series`. -/
def calculate_pack_specs (cell_specs_individual : CellSpecs)
    (num_cells_series : ℤ) : PackSpecs :=
  { NUM_CELULAS_SERIE := num_cells_series
    PACK_TENSAO_MAX := num_cells_series * cell_specs_individual.TENSAO_CARGA_MAX
    PACK_TENSAO_NOMINAL := num_cells_series * cell_specs_individual.TENSAO_NOMINAL
    PACK_TENSAO_CORTE := num_cells_series * cell_specs_individual.TENSAO_CORTE
    PACK_TENSAO_LIMIAR_BOM_MIN :=
      num_cells_series * cell_specs_individual.TENSAO_NOMINAL
        - (0.5 * ((num_cells_series : ℚ) / 12))
    PACK_TENSAO_LIMIAR_MONITOR_MIN :=
      num_cells_series * cell_specs_individual.TENSAO_CORTE
        + (6.0 * ((num_cells_series : ℚ) / 12))
    PACK_TENSAO_LIMIAR_RUIM_MIN :=
      num_cells_series * cell_specs_individual.TENSAO_CORTE
        + (1.2 * ((num_cells_series : ℚ) / 12))
    PACK_TENSAO_LIMIAR_CRITICO_MIN :=
      num_cells_series * cell_specs_individual.TENSAO_CORTE }

/-- The reason messages `avaliar_celula_individual` can append, one
constructor per `motivos.append` site, carrying the interpolated values. -/
inductive Motivo where
  /-- "OCV muito baixa (< corte V). Risco de dano irreversível e segurança." -/
  | ocvMuitoBaixa (corte : ℚ)
  /-- "OCV baixa (< 3.00V). Requer recarga urgente." -/
  | ocvBaixaRecargaUrgente (limiar : ℚ)
  /-- "OCV com alto desvio da média do pack (diff V). Indica forte desbalanceamento." -/
  | ocvAltoDesvio (diff : ℚ)
  /-- "OCV com desvio moderado da média do pack (diff V). Indica desbalanceamento inicial." -/
  | ocvDesvioModerado (diff : ℚ)
  /-- "IR muito alta (ir mOhm). Célula degradada, compromete potência e aquecimento." -/
  | irMuitoAlta (ir : ℚ)
  /-- "IR moderada (ir mOhm). Degradando, requer monitoramento." -/
  | irModerada (ir : ℚ)
  /-- "IR um pouco acima do ideal (ir mOhm). Pode ser sinal de envelhecimento." -/
  | irAcimaIdeal (ir : ℚ)
  /-- "IR com alto desvio percentual da média do pack (pct %). Sinal de degradação acentuada." -/
  | irAltoDesvioPct (pct : ℚ)
  /-- "IR com desvio percentual moderado da média do pack (pct %). Início de degradação." -/
  | irDesvioPctModerado (pct : ℚ)
  /-- "Dentro dos parâmetros esperados." -/
  | dentroParametros
deriving DecidableEq

/-!
`avaliar_celula_individual` mutates a pair of locals `(status, motivos)`
through five sequential blocks; each block is embedded as one state-passing
function over `Status × List Motivo`, and the evaluator is their
composition starting from `("Bom", [])`.
-/

/-- Block "Avaliação de Tensão (OCV)" of `avaliar_celula_individual`. -/
def fase_ocv_absoluta (ocv : ℚ) (current_cell_specs : CellSpecs)
    (sm : Status × List Motivo) : Status × List Motivo :=
  if ocv < current_cell_specs.TENSAO_CORTE then
    (.Critico, sm.2 ++ [.ocvMuitoBaixa current_cell_specs.TENSAO_CORTE])
  else if ocv < OCV_ABSOLUTO_LIMIAR_RUIM then
    if sm.1 ≠ .Critico then
      (.Ruim, sm.2 ++ [.ocvBaixaRecargaUrgente OCV_ABSOLUTO_LIMIAR_RUIM])
    else sm
  else sm

/-- Block `if not is_avulsa and ocv_media is not None:` of
`avaliar_celula_individual` (OCV deviation from the pack mean). -/
def fase_ocv_desvio (ocv : ℚ) (ocv_media : Option ℚ) (is_avulsa : Bool)
    (sm : Status × List Motivo) : Status × List Motivo :=
  match is_avulsa, ocv_media with
  | false, some ocv_media =>
    let ocv_diff := |ocv - ocv_media|
    if ocv_diff > OCV_DIFF_LIMIAR_RUIM then
      if sm.1 ∉ [Status.Critico, Status.Ruim] then
        (.Ruim, sm.2 ++ [.ocvAltoDesvio ocv_diff])
      else sm
    else if ocv_diff > OCV_DIFF_LIMIAR_MONITOR then
      if sm.1 = Status.Bom then
        (.Monitorar, sm.2 ++ [.ocvDesvioModerado ocv_diff])
      else sm
    else sm
  | _, _ => sm

/-- Block "Avaliação de Resistência Interna (IR)" of
`avaliar_celula_individual`. -/
def fase_ir_absoluta (ir : ℚ) (sm : Status × List Motivo) :
    Status × List Motivo :=
  if ir ≥ IR_LIMIAR_RUIM_MIN then
    if sm.1 ∉ [Status.Critico, Status.Ruim] then
      (.Ruim, sm.2 ++ [.irMuitoAlta ir])
    else sm
  else if ir ≥ IR_LIMIAR_MONITOR_MAX then
    if sm.1 = Status.Bom then
      (.Monitorar, sm.2 ++ [.irModerada ir])
    else sm
  else if ir > IR_LIMIAR_BOM_MAX then
    if sm.1 = Status.Bom then
      (.Monitorar, sm.2 ++ [.irAcimaIdeal ir])
    else sm
  else sm

/-- Block `if not is_avulsa and ir_media is not None and ir_media > 0:` of
`avaliar_celula_individual` (IR percentage deviation from the pack mean). -/
def fase_ir_desvio_pct (ir : ℚ) (ir_media : Option ℚ) (is_avulsa : Bool)
    (sm : Status × List Motivo) : Status × List Motivo :=
  match is_avulsa, ir_media with
  | false, some ir_media =>
    if ir_media > 0 then
      let ir_pct_diff := ((ir - ir_media) / ir_media) * 100
      if ir_pct_diff > IR_PCT_DIFF_LIMIAR_RUIM then
        if sm.1 ∉ [Status.Critico, Status.Ruim] then
          (.Ruim, sm.2 ++ [.irAltoDesvioPct ir_pct_diff])
        else sm
      else if ir_pct_diff > IR_PCT_DIFF_LIMIAR_MONITOR then
        if sm.1 = Status.Bom then
          (.Monitorar, sm.2 ++ [.irDesvioPctModerado ir_pct_diff])
        else sm
      else sm
    else sm
  | _, _ => sm

/-- Block `if not motivos and status == "Bom": motivos.append(...)` of
`avaliar_celula_individual`. -/
def fase_motivo_padrao (sm : Status × List Motivo) : Status × List Motivo :=
  if sm.2 = [] ∧ sm.1 = Status.Bom then (sm.1, sm.2 ++ [.dentroParametros])
  else sm

/-- `avaliar_celula_individual(ocv, ir, current_cell_specs, ocv_media,
ir_media, is_avulsa)` up to (and excluding) its `return` line: the final
`status` together with the `motivos` list it accumulated. -/
def avaliar_celula_individual (ocv ir : ℚ) (current_cell_specs : CellSpecs)
    (ocv_media ir_media : Option ℚ) (is_avulsa : Bool) :
    Status × List Motivo :=
  fase_motivo_padrao
    (fase_ir_desvio_pct ir ir_media is_avulsa
      (fase_ir_absoluta ir
        (fase_ocv_desvio ocv ocv_media is_avulsa
          (fase_ocv_absoluta ocv current_cell_specs (.Bom, [])))))

/-- The `return` line of `avaliar_celula_individual`:
`return status, "; ".join(motivos) if motivos else "N/A"` — `none` models
the "N/A" string, `some ms` the join of a non-empty `ms`. -/
def avaliar_celula_individual_retorno (ocv ir : ℚ)
    (current_cell_specs : CellSpecs) (ocv_media ir_media : Option ℚ)
    (is_avulsa : Bool) : Status × Option (List Motivo) :=
  let r := avaliar_celula_individual ocv ir current_cell_specs
    ocv_media ir_media is_avulsa
  (r.1, if r.2 ≠ [] then some r.2 else none)

/-- The reason messages of `avaliar_pack_voltage`, one constructor per
append site, carrying the interpolated values. -/
inductive MotivoPack where
  /-- "Tensão total do pack (v V) acima do máximo permitido (max V). Risco de sobrecarga e superaquecimento." -/
  | acimaMaximo (v max : ℚ)
  /-- "Tensão total do pack (v V) abaixo da tensão de corte (corte V). Risco de dano irreversível às células e segurança comprometida." -/
  | abaixoCorte (v corte : ℚ)
  /-- "Tensão total do pack (v V) muito baixa. Próximo à descarga crítica, a ferramenta pode falhar sob carga." -/
  | muitoBaixa (v : ℚ)
  /-- "Tensão total do pack (v V) baixa. Sugere que o pack precisa ser recarregado em breve." -/
  | baixa (v : ℚ)
  /-- "Tensão total do pack (v V) abaixo da nominal, mas aceitável. Indicativo de SoC intermediário." -/
  | abaixoNominal (v : ℚ)
  /-- "Tensão total do pack (v V) dentro dos limites esperados e saudáveis." -/
  | dentroLimites (v : ℚ)
deriving DecidableEq

/-- `avaliar_pack_voltage(total_pack_voltage_medido, current_pack_specs)`:
single if/elif ladder classifying the measured total pack voltage. -/
def avaliar_pack_voltage (total_pack_voltage_medido : ℚ)
    (current_pack_specs : PackSpecs) : Status × List MotivoPack :=
  if total_pack_voltage_medido > current_pack_specs.PACK_TENSAO_MAX + 0.1 then
    (.Critico, [.acimaMaximo total_pack_voltage_medido
      current_pack_specs.PACK_TENSAO_MAX])
  else if total_pack_voltage_medido
      < current_pack_specs.PACK_TENSAO_LIMIAR_CRITICO_MIN then
    (.Critico, [.abaixoCorte total_pack_voltage_medido
      current_pack_specs.PACK_TENSAO_LIMIAR_CRITICO_MIN])
  else if total_pack_voltage_medido
      < current_pack_specs.PACK_TENSAO_LIMIAR_RUIM_MIN then
    (.Ruim, [.muitoBaixa total_pack_voltage_medido])
  else if total_pack_voltage_medido
      < current_pack_specs.PACK_TENSAO_LIMIAR_MONITOR_MIN then
    (.Monitorar, [.baixa total_pack_voltage_medido])
  else if total_pack_voltage_medido
      < current_pack_specs.PACK_TENSAO_LIMIAR_BOM_MIN then
    (.Monitorar, [.abaixoNominal total_pack_voltage_medido])
  else
    (.Bom, [.dentroLimites total_pack_voltage_medido])

/-- The dict `status_pack_ordem = {"Bom": 0, "Monitorar": 1, "Ruim": 2,
"Crítico": 3}` used by the pack aggregation loop. -/
def status_pack_ordem : Status → ℕ
  | .Bom => 0
  | .Monitorar => 1
  | .Ruim => 2
  | .Critico => 3

/-- The aggregation loop of the pack analysis: starting from the
pack-voltage status, replace the running verdict by a cell's status
whenever the cell's `status_pack_ordem` rank is strictly greater. -/
def status_pack_geral_base (status_pack_v : Status)
    (cell_statuses : List Status) : Status :=
  cell_statuses.foldl
    (fun acc s => if status_pack_ordem s > status_pack_ordem acc then s
      else acc)
    status_pack_v

/-- A hypothetical cell model: it satisfies the CellSpec ordering invariant
`cutoff < nominal < max_charge` but has a small nominal-cutoff gap.  Used
as a concrete input to `calculate_pack_specs`. -/
def CellSpecsEstreita : CellSpecs :=
  { NOME := "Hipotetica 18650"
    FABRICANTE := "Hipotetica"
    FERRAMENTA_USO := "Nenhuma"
    TENSAO_NOMINAL := 3.20
    TENSAO_CARGA_MAX := 4.20
    TENSAO_CORTE := 3.00
    IR_NOVA_TIPICA := 16.00
    CORRENTE_MAX_CONTINUA := 30.00
    CAPACIDADE_NOMINAL_MAH := 1550 }

/-!
## Auxiliary notions for the theorems

`status_pack_ordem` is the severity rank Bom 0 < Monitorar 1 < Ruim 2 <
Crítico 3 (§3 of the specification).  Each block of
`avaliar_celula_individual` only ever escalates: its output rank is the
max of its input rank and a "contribution" depending only on the block's
own guards.  The contribution functions below are *derived* read-outs of
the guards, used to state and prove the decomposition lemma.
-/

/-- Rank contributed by the absolute-OCV block. -/
def contrib_ocv_absoluta (ocv : ℚ) (current_cell_specs : CellSpecs) : ℕ :=
  if ocv < current_cell_specs.TENSAO_CORTE then 3
  else if ocv < OCV_ABSOLUTO_LIMIAR_RUIM then 2
  else 0

/-- Rank contributed by the OCV-deviation block. -/
def contrib_ocv_desvio (ocv : ℚ) (ocv_media : Option ℚ)
    (is_avulsa : Bool) : ℕ :=
  match is_avulsa, ocv_media with
  | false, some ocv_media =>
    if |ocv - ocv_media| > OCV_DIFF_LIMIAR_RUIM then 2
    else if |ocv - ocv_media| > OCV_DIFF_LIMIAR_MONITOR then 1
    else 0
  | _, _ => 0

/-- Rank contributed by the absolute-IR block. -/
def contrib_ir_absoluta (ir : ℚ) : ℕ :=
  if ir ≥ IR_LIMIAR_RUIM_MIN then 2
  else if ir > IR_LIMIAR_BOM_MAX then 1
  else 0

/-- Rank contributed by the IR-percentage-deviation block. -/
def contrib_ir_desvio_pct (ir : ℚ) (ir_media : Option ℚ)
    (is_avulsa : Bool) : ℕ :=
  match is_avulsa, ir_media with
  | false, some ir_media =>
    if ir_media > 0 then
      if ((ir - ir_media) / ir_media) * 100 > IR_PCT_DIFF_LIMIAR_RUIM then 2
      else if ((ir - ir_media) / ir_media) * 100 > IR_PCT_DIFF_LIMIAR_MONITOR
        then 1
      else 0
    else 0
  | _, _ => 0

/-- Invariant threaded through the blocks: a status other than Bom always
comes with at least one recorded reason. -/
def MotivoInv (sm : Status × List Motivo) : Prop :=
  sm.1 ≠ Status.Bom → sm.2 ≠ []

/-- One step of the aggregation loop, as a binary operation. -/
def passo_agrega (acc s : Status) : Status :=
  if status_pack_ordem s > status_pack_ordem acc then s else acc

lemma status_pack_ordem_inj : ∀ a b : Status,
    status_pack_ordem a = status_pack_ordem b → a = b := by
  intro a b
  cases a <;> cases b <;> simp [status_pack_ordem]

lemma ordem_fase_ocv_absoluta (ocv : ℚ) (spec : CellSpecs)
    (sm : Status × List Motivo) :
    status_pack_ordem (fase_ocv_absoluta ocv spec sm).1
      = max (status_pack_ordem sm.1) (contrib_ocv_absoluta ocv spec) := by
  unfold fase_ocv_absoluta contrib_ocv_absoluta
  split_ifs with h1 h2 h3 <;>
    first
      | (cases h : sm.1 <;> simp_all [status_pack_ordem])
      | simp_all [status_pack_ordem]

lemma ordem_fase_ocv_desvio (ocv : ℚ) (om : Option ℚ) (av : Bool)
    (sm : Status × List Motivo) :
    status_pack_ordem (fase_ocv_desvio ocv om av sm).1
      = max (status_pack_ordem sm.1) (contrib_ocv_desvio ocv om av) := by
  unfold fase_ocv_desvio contrib_ocv_desvio
  rcases av with _ | _ <;> rcases om with _ | m <;>
    simp only [] <;>
    try simp
  split_ifs with h1 h2 h3 h4 <;>
    (cases h : sm.1 <;> simp_all [status_pack_ordem])

lemma ordem_fase_ir_absoluta (ir : ℚ) (sm : Status × List Motivo) :
    status_pack_ordem (fase_ir_absoluta ir sm).1
      = max (status_pack_ordem sm.1) (contrib_ir_absoluta ir) := by
  unfold fase_ir_absoluta contrib_ir_absoluta
  have hc : IR_LIMIAR_MONITOR_MAX = IR_LIMIAR_RUIM_MIN := by
    norm_num [IR_LIMIAR_MONITOR_MAX, IR_LIMIAR_RUIM_MIN]
  split_ifs with h1 h2 h3 h4 h5 <;>
    (try (cases h : sm.1 <;> simp_all [status_pack_ordem])) <;> linarith

lemma ordem_fase_ir_desvio_pct (ir : ℚ) (im : Option ℚ) (av : Bool)
    (sm : Status × List Motivo) :
    status_pack_ordem (fase_ir_desvio_pct ir im av sm).1
      = max (status_pack_ordem sm.1) (contrib_ir_desvio_pct ir im av) := by
  unfold fase_ir_desvio_pct contrib_ir_desvio_pct
  rcases av with _ | _ <;> rcases im with _ | m <;>
    simp only [] <;>
    try simp
  split_ifs with h1 h2 h3 h4 h5 <;>
    (cases h : sm.1 <;> simp_all [status_pack_ordem])

lemma ordem_fase_motivo_padrao (sm : Status × List Motivo) :
    status_pack_ordem (fase_motivo_padrao sm).1
      = status_pack_ordem sm.1 := by
  unfold fase_motivo_padrao
  split_ifs <;> simp

/-- Decomposition: the severity rank of `avaliar_celula_individual` is the
max of the four blocks' rank contributions. -/
lemma ordem_avaliar_celula (ocv ir : ℚ) (spec : CellSpecs)
    (om im : Option ℚ) (av : Bool) :
    status_pack_ordem (avaliar_celula_individual ocv ir spec om im av).1
      = max (max (contrib_ocv_absoluta ocv spec)
              (contrib_ocv_desvio ocv om av))
          (max (contrib_ir_absoluta ir)
            (contrib_ir_desvio_pct ir im av)) := by
  unfold avaliar_celula_individual
  rw [ordem_fase_motivo_padrao, ordem_fase_ir_desvio_pct,
    ordem_fase_ir_absoluta, ordem_fase_ocv_desvio, ordem_fase_ocv_absoluta]
  simp [status_pack_ordem]
  omega

lemma motivoInv_fase_ocv_absoluta (ocv : ℚ) (spec : CellSpecs)
    (sm : Status × List Motivo) (h : MotivoInv sm) :
    MotivoInv (fase_ocv_absoluta ocv spec sm) := by
  unfold MotivoInv fase_ocv_absoluta at *
  split_ifs <;> simp_all

lemma motivoInv_fase_ocv_desvio (ocv : ℚ) (om : Option ℚ) (av : Bool)
    (sm : Status × List Motivo) (h : MotivoInv sm) :
    MotivoInv (fase_ocv_desvio ocv om av sm) := by
  unfold MotivoInv fase_ocv_desvio at *
  rcases av with _ | _ <;> rcases om with _ | m <;> simp only [] <;>
    try assumption
  split_ifs <;> simp_all

lemma motivoInv_fase_ir_absoluta (ir : ℚ) (sm : Status × List Motivo)
    (h : MotivoInv sm) : MotivoInv (fase_ir_absoluta ir sm) := by
  unfold MotivoInv fase_ir_absoluta at *
  split_ifs <;> simp_all

lemma motivoInv_fase_ir_desvio_pct (ir : ℚ) (im : Option ℚ) (av : Bool)
    (sm : Status × List Motivo) (h : MotivoInv sm) :
    MotivoInv (fase_ir_desvio_pct ir im av sm) := by
  unfold MotivoInv fase_ir_desvio_pct at *
  rcases av with _ | _ <;> rcases im with _ | m <;> simp only [] <;>
    try assumption
  split_ifs <;> simp_all

/-- After the final default-reason block, the reason list is never empty. -/
lemma motivos_fase_motivo_padrao (sm : Status × List Motivo)
    (h : MotivoInv sm) : (fase_motivo_padrao sm).2 ≠ [] := by
  unfold MotivoInv fase_motivo_padrao at *
  split_ifs with hc
  · simp
  · rcases hs : sm.2 with _ | _
    · intro _
      rcases hb : sm.1 with _ | _ | _ | _ <;> simp_all
    · simp [hs]

/-- The `motivos` list of `avaliar_celula_individual` is never empty. -/
lemma avaliar_celula_motivos_ne_nil (ocv ir : ℚ) (spec : CellSpecs)
    (om im : Option ℚ) (av : Bool) :
    (avaliar_celula_individual ocv ir spec om im av).2 ≠ [] := by
  unfold avaliar_celula_individual
  apply motivos_fase_motivo_padrao
  apply motivoInv_fase_ir_desvio_pct
  apply motivoInv_fase_ir_absoluta
  apply motivoInv_fase_ocv_desvio
  apply motivoInv_fase_ocv_absoluta
  intro h
  simp at h

/-!
## Aggregator lemmas
-/

lemma status_pack_geral_base_eq_foldl (v : Status) (l : List Status) :
    status_pack_geral_base v l = l.foldl passo_agrega v := rfl

lemma ordem_passo_agrega (acc s : Status) :
    status_pack_ordem (passo_agrega acc s)
      = max (status_pack_ordem acc) (status_pack_ordem s) := by
  unfold passo_agrega
  split_ifs with h <;> omega

lemma passo_agrega_left_comm (v a b : Status) :
    passo_agrega (passo_agrega v a) b = passo_agrega (passo_agrega v b) a := by
  cases v <;> cases a <;> cases b <;> rfl

/-- The rank of the aggregated verdict is the max of all ranks. -/
lemma ordem_status_pack_geral_base (v : Status) (l : List Status) :
    status_pack_ordem (status_pack_geral_base v l)
      = (l.map status_pack_ordem).foldl max (status_pack_ordem v) := by
  rw [status_pack_geral_base_eq_foldl]
  induction l generalizing v with
  | nil => rfl
  | cons a t ih =>
    simp only [List.foldl_cons, List.map_cons]
    rw [ih, ordem_passo_agrega]

lemma status_pack_geral_base_perm (v : Status) {l₁ l₂ : List Status}
    (p : l₁.Perm l₂) :
    status_pack_geral_base v l₁ = status_pack_geral_base v l₂ := by
  rw [status_pack_geral_base_eq_foldl, status_pack_geral_base_eq_foldl]
  induction p generalizing v with
  | nil => rfl
  | cons x _ ih => simp only [List.foldl_cons]; exact ih _
  | swap x y l =>
    simp only [List.foldl_cons]
    rw [passo_agrega_left_comm]
  | trans _ _ ih₁ ih₂ => exact (ih₁ v).trans (ih₂ v)

/-!
## Monotonicity of the block contributions
-/

lemma contrib_ir_absoluta_mono {ir₁ ir₂ : ℚ} (h : ir₁ ≤ ir₂) :
    contrib_ir_absoluta ir₁ ≤ contrib_ir_absoluta ir₂ := by
  unfold contrib_ir_absoluta IR_LIMIAR_RUIM_MIN IR_LIMIAR_BOM_MAX
  split_ifs <;> first | omega | (exfalso; linarith)

lemma contrib_ir_desvio_pct_mono {ir₁ ir₂ : ℚ} (im : Option ℚ) (av : Bool)
    (h : ir₁ ≤ ir₂) :
    contrib_ir_desvio_pct ir₁ im av ≤ contrib_ir_desvio_pct ir₂ im av := by
  unfold contrib_ir_desvio_pct
  rcases av with _ | _ <;> rcases im with _ | m <;> simp only [le_refl]
  by_cases hm : m > 0
  · have key : ((ir₁ - m) / m) * 100 ≤ ((ir₂ - m) / m) * 100 := by
      have : (ir₁ - m) / m ≤ (ir₂ - m) / m :=
        (div_le_div_iff_of_pos_right hm).mpr (by linarith)
      linarith
    rw [if_pos hm, if_pos hm]
    split_ifs <;> first | omega | (exfalso; linarith)
  · rw [if_neg hm, if_neg hm]

lemma contrib_ocv_desvio_mono {ocv₁ ocv₂ m : ℚ}
    (h : |ocv₁ - m| ≤ |ocv₂ - m|) :
    contrib_ocv_desvio ocv₁ (some m) false
      ≤ contrib_ocv_desvio ocv₂ (some m) false := by
  unfold contrib_ocv_desvio OCV_DIFF_LIMIAR_RUIM OCV_DIFF_LIMIAR_MONITOR
  dsimp only
  split_ifs <;> first | omega | (exfalso; linarith)

lemma contrib_ocv_absoluta_boa {ocv : ℚ} {spec : CellSpecs}
    (h1 : spec.TENSAO_CORTE ≤ ocv) (h2 : OCV_ABSOLUTO_LIMIAR_RUIM ≤ ocv) :
    contrib_ocv_absoluta ocv spec = 0 := by
  unfold contrib_ocv_absoluta
  split_ifs <;> first | rfl | (exfalso; linarith)

/-- A standalone evaluation (`is_avulsa = true`) skips the OCV-deviation
block entirely. -/
lemma fase_ocv_desvio_avulsa (ocv : ℚ) (om : Option ℚ)
    (sm : Status × List Motivo) : fase_ocv_desvio ocv om true sm = sm := by
  rcases om with _ | m <;> rfl

/-- A standalone evaluation (`is_avulsa = true`) skips the IR-percentage
block entirely. -/
lemma fase_ir_desvio_pct_avulsa (ir : ℚ) (im : Option ℚ)
    (sm : Status × List Motivo) : fase_ir_desvio_pct ir im true sm = sm := by
  rcases im with _ | m <;> rfl

/-!
## Unreachability of the "IR moderada" reason

The middle IR branch is guarded by `ir >= IR_LIMIAR_MONITOR_MAX` (30.00)
but is only reached after `ir >= IR_LIMIAR_RUIM_MIN` (also 30.00) has
failed, so no execution of `avaliar_celula_individual` ever appends
`Motivo.irModerada`.
-/

lemma irModerada_fase_ocv_absoluta (x ocv : ℚ) (spec : CellSpecs)
    (sm : Status × List Motivo) (h : Motivo.irModerada x ∉ sm.2) :
    Motivo.irModerada x ∉ (fase_ocv_absoluta ocv spec sm).2 := by
  unfold fase_ocv_absoluta
  split_ifs <;> simp_all

lemma irModerada_fase_ocv_desvio (x ocv : ℚ) (om : Option ℚ) (av : Bool)
    (sm : Status × List Motivo) (h : Motivo.irModerada x ∉ sm.2) :
    Motivo.irModerada x ∉ (fase_ocv_desvio ocv om av sm).2 := by
  unfold fase_ocv_desvio
  rcases av with _ | _ <;> rcases om with _ | m <;> simp only [] <;>
    try assumption
  split_ifs <;> simp_all

lemma irModerada_fase_ir_absoluta (x ir : ℚ)
    (sm : Status × List Motivo) (h : Motivo.irModerada x ∉ sm.2) :
    Motivo.irModerada x ∉ (fase_ir_absoluta ir sm).2 := by
  unfold fase_ir_absoluta IR_LIMIAR_RUIM_MIN IR_LIMIAR_MONITOR_MAX
    IR_LIMIAR_BOM_MAX
  split_ifs <;> first | (exfalso; linarith) | simp_all

lemma irModerada_fase_ir_desvio_pct (x ir : ℚ) (im : Option ℚ) (av : Bool)
    (sm : Status × List Motivo) (h : Motivo.irModerada x ∉ sm.2) :
    Motivo.irModerada x ∉ (fase_ir_desvio_pct ir im av sm).2 := by
  unfold fase_ir_desvio_pct
  rcases av with _ | _ <;> rcases im with _ | m <;> simp only [] <;>
    try assumption
  split_ifs <;> simp_all

lemma irModerada_fase_motivo_padrao (x : ℚ)
    (sm : Status × List Motivo) (h : Motivo.irModerada x ∉ sm.2) :
    Motivo.irModerada x ∉ (fase_motivo_padrao sm).2 := by
  unfold fase_motivo_padrao
  split_ifs <;> simp_all

/-- The "IR moderada, degradando" append is dead code: no evaluation ever
records it. -/
lemma irModerada_nunca_registrada (ocv ir : ℚ) (spec : CellSpecs)
    (om im : Option ℚ) (av : Bool) (x : ℚ) :
    Motivo.irModerada x ∉ (avaliar_celula_individual ocv ir spec om im av).2 := by
  unfold avaliar_celula_individual
  apply irModerada_fase_motivo_padrao
  apply irModerada_fase_ir_desvio_pct
  apply irModerada_fase_ir_absoluta
  apply irModerada_fase_ocv_desvio
  apply irModerada_fase_ocv_absoluta
  simp

/-- The IR-percentage block does nothing when no pack IR mean is given. -/
lemma fase_ir_desvio_pct_none (ir : ℚ) (sm : Status × List Motivo) :
    fase_ir_desvio_pct ir none false sm = sm := rfl

/-- The IR-percentage block does nothing when the pack IR mean is 0 (the
`ir_media > 0` guard fails). -/
lemma fase_ir_desvio_pct_zero (ir : ℚ) (sm : Status × List Motivo) :
    fase_ir_desvio_pct ir (some 0) false sm = sm := by
  unfold fase_ir_desvio_pct
  dsimp only
  rw [if_neg (lt_irrefl 0)]

/-!
## Claim theorems
-/

/-- C10: for every input, `avaliar_celula_individual` accumulates at least
one reason, so the "N/A" fallback on its return line is unreachable: the
returned reasons are always `some` of the non-empty `motivos` list. -/
theorem C10_motivos_nunca_vazio (ocv ir : ℚ) (spec : CellSpecs)
    (om im : Option ℚ) (av : Bool) :
    (avaliar_celula_individual ocv ir spec om im av).2 ≠ []
    ∧ (avaliar_celula_individual_retorno ocv ir spec om im av).2
        = some (avaliar_celula_individual ocv ir spec om im av).2 := by
  refine ⟨avaliar_celula_motivos_ne_nil ocv ir spec om im av, ?_⟩
  unfold avaliar_celula_individual_retorno
  dsimp only
  rw [if_pos (avaliar_celula_motivos_ne_nil ocv ir spec om im av)]

/-- C7: the aggregated pack verdict has the maximum severity rank (under
Bom 0 < Monitorar 1 < Ruim 2 < Crítico 3) over the pack-voltage status and
all cell statuses, and it is invariant under any permutation of the
cell-status sequence. -/
theorem C7_agregador_max_e_permutacao :
    (∀ (v : Status) (l : List Status),
      status_pack_ordem (status_pack_geral_base v l)
        = (l.map status_pack_ordem).foldl max (status_pack_ordem v))
    ∧ ∀ (v : Status) (l₁ l₂ : List Status), l₁.Perm l₂ →
        status_pack_geral_base v l₁ = status_pack_geral_base v l₂ := by
  exact ⟨fun v l => ordem_status_pack_geral_base v l,
    fun v l₁ l₂ p => status_pack_geral_base_perm v p⟩

theorem C7_agregador_witness :
    status_pack_ordem
        (status_pack_geral_base Status.Monitorar [Status.Ruim, Status.Bom])
        = ([Status.Ruim, Status.Bom].map status_pack_ordem).foldl max
            (status_pack_ordem Status.Monitorar)
    ∧ status_pack_geral_base Status.Bom [Status.Ruim, Status.Monitorar]
        = status_pack_geral_base Status.Bom [Status.Monitorar, Status.Ruim] :=
  ⟨C7_agregador_max_e_permutacao.1 Status.Monitorar [Status.Ruim, Status.Bom],
   C7_agregador_max_e_permutacao.2 Status.Bom [Status.Ruim, Status.Monitorar]
     [Status.Monitorar, Status.Ruim]
     (List.Perm.swap Status.Monitorar Status.Ruim [])⟩

/-- C9: a standalone cell (`is_avulsa = true`) of either registry model
with `ocv ≥ 3.00` and `ir ≤ 20` is classified exactly Bom with the single
default reason, and the pack-mean arguments are ignored: any two choices of
means give the identical result. -/
theorem C9_avulsa_boa_ignora_medias (ocv ir : ℚ) (spec : CellSpecs)
    (hspec : spec = SonySpecs ∨ spec = PanasonicSpecs)
    (hocv : 3 ≤ ocv) (hir : ir ≤ 20) (om im om' im' : Option ℚ) :
    avaliar_celula_individual ocv ir spec om im true
        = (Status.Bom, [Motivo.dentroParametros])
    ∧ avaliar_celula_individual ocv ir spec om im true
        = avaliar_celula_individual ocv ir spec om' im' true := by
  have hcorte : spec.TENSAO_CORTE ≤ ocv := by
    rcases hspec with h | h <;> subst h <;>
      (norm_num [SonySpecs, PanasonicSpecs]) <;> linarith
  have h₁ : fase_ocv_absoluta ocv spec (Status.Bom, []) = (Status.Bom, []) := by
    unfold fase_ocv_absoluta OCV_ABSOLUTO_LIMIAR_RUIM
    rw [if_neg (by simp only [not_lt]; exact hcorte),
      if_neg (by simp only [not_lt]; linarith)]
  have h₂ : fase_ir_absoluta ir ((Status.Bom, []) : Status × List Motivo)
      = (Status.Bom, []) := by
    unfold fase_ir_absoluta IR_LIMIAR_RUIM_MIN IR_LIMIAR_MONITOR_MAX
      IR_LIMIAR_BOM_MAX
    rw [if_neg (by simp only [ge_iff_le, not_le]; linarith),
      if_neg (by simp only [ge_iff_le, not_le]; linarith),
      if_neg (by simp only [not_lt]; linarith)]
  have key : ∀ om₀ im₀ : Option ℚ,
      avaliar_celula_individual ocv ir spec om₀ im₀ true
        = (Status.Bom, [Motivo.dentroParametros]) := by
    intro om₀ im₀
    unfold avaliar_celula_individual
    rw [h₁, fase_ocv_desvio_avulsa, h₂, fase_ir_desvio_pct_avulsa]
    unfold fase_motivo_padrao
    rw [if_pos ⟨rfl, rfl⟩]
    rfl
  exact ⟨key om im, (key om im).trans (key om' im').symm⟩

theorem C9_avulsa_boa_witness :
    (SonySpecs = SonySpecs ∨ SonySpecs = PanasonicSpecs)
    ∧ (3 : ℚ) ≤ 3.7 ∧ (16 : ℚ) ≤ 20
    ∧ (avaliar_celula_individual 3.7 16 SonySpecs (some 1) (some 2) true
          = (Status.Bom, [Motivo.dentroParametros])
        ∧ avaliar_celula_individual 3.7 16 SonySpecs (some 1) (some 2) true
          = avaliar_celula_individual 3.7 16 SonySpecs none none true) :=
  ⟨Or.inl rfl, by norm_num, by norm_num,
   C9_avulsa_boa_ignora_medias 3.7 16 SonySpecs (Or.inl rfl) (by norm_num)
     (by norm_num) (some 1) (some 2) none none⟩

/-- C8 counterexample: with the Sony spec, pack-mean OCV 3.04 and fixed
ir 10, the OCV 2.99 (deviation 0.05) is Ruim via the absolute 3.00V rule,
while OCV 3.10 (larger deviation 0.06) is only Monitorar: the severity
rank is not non-decreasing in `|ocv − pack_ocv_mean|`. -/
theorem C8_monotonicidade_contraexemplo :
    |(299/100 : ℚ) - 304/100| ≤ |(31/10 : ℚ) - 304/100|
    ∧ status_pack_ordem (avaliar_celula_individual (299/100) 10 SonySpecs
        (some (304/100)) (some 10) false).1 = 2
    ∧ status_pack_ordem (avaliar_celula_individual (31/10) 10 SonySpecs
        (some (304/100)) (some 10) false).1 = 1 := by
  have e₁ : avaliar_celula_individual (299/100) 10 SonySpecs
      (some (304/100)) (some 10) false
      = (Status.Ruim, [Motivo.ocvBaixaRecargaUrgente 3]) := by
    norm_num [avaliar_celula_individual, fase_ocv_absoluta, fase_ocv_desvio,
      fase_ir_absoluta, fase_ir_desvio_pct, fase_motivo_padrao,
      SonySpecs, OCV_DIFF_LIMIAR_MONITOR, OCV_DIFF_LIMIAR_RUIM,
      OCV_ABSOLUTO_LIMIAR_RUIM, IR_LIMIAR_BOM_MAX, IR_LIMIAR_MONITOR_MAX,
      IR_LIMIAR_RUIM_MIN, IR_PCT_DIFF_LIMIAR_MONITOR,
      IR_PCT_DIFF_LIMIAR_RUIM, abs_of_nonneg, abs_of_nonpos]
    all_goals try simp
  have e₂ : avaliar_celula_individual (31/10) 10 SonySpecs
      (some (304/100)) (some 10) false
      = (Status.Monitorar, [Motivo.ocvDesvioModerado (3/50)]) := by
    norm_num [avaliar_celula_individual, fase_ocv_absoluta, fase_ocv_desvio,
      fase_ir_absoluta, fase_ir_desvio_pct, fase_motivo_padrao,
      SonySpecs, OCV_DIFF_LIMIAR_MONITOR, OCV_DIFF_LIMIAR_RUIM,
      OCV_ABSOLUTO_LIMIAR_RUIM, IR_LIMIAR_BOM_MAX, IR_LIMIAR_MONITOR_MAX,
      IR_LIMIAR_RUIM_MIN, IR_PCT_DIFF_LIMIAR_MONITOR,
      IR_PCT_DIFF_LIMIAR_RUIM, abs_of_nonneg, abs_of_nonpos]
    all_goals try simp
  refine ⟨by norm_num [abs_of_nonpos, abs_of_nonneg], ?_, ?_⟩
  · rw [e₁]
    rfl
  · rw [e₂]
    rfl

/-- C8 amended: the severity rank of `avaliar_celula_individual` is
non-decreasing in `ir` for fixed ocv, spec, means and mode; and it is
non-decreasing in `|ocv − pack_ocv_mean|` for fixed ir, spec and means
provided both OCVs are at or above the model cutoff and the absolute
3.00V threshold (otherwise the absolute-voltage rules can give the
smaller deviation the higher severity). -/
theorem C8_monotonicidade_amended :
    (∀ (ocv : ℚ) (spec : CellSpecs) (om im : Option ℚ) (av : Bool)
        (ir₁ ir₂ : ℚ), ir₁ ≤ ir₂ →
      status_pack_ordem
          (avaliar_celula_individual ocv ir₁ spec om im av).1
        ≤ status_pack_ordem
            (avaliar_celula_individual ocv ir₂ spec om im av).1)
    ∧ ∀ (ir : ℚ) (spec : CellSpecs) (m : ℚ) (im : Option ℚ)
        (ocv₁ ocv₂ : ℚ),
        spec.TENSAO_CORTE ≤ ocv₁ → OCV_ABSOLUTO_LIMIAR_RUIM ≤ ocv₁ →
        spec.TENSAO_CORTE ≤ ocv₂ → OCV_ABSOLUTO_LIMIAR_RUIM ≤ ocv₂ →
        |ocv₁ - m| ≤ |ocv₂ - m| →
        status_pack_ordem
            (avaliar_celula_individual ocv₁ ir spec (some m) im false).1
          ≤ status_pack_ordem
              (avaliar_celula_individual ocv₂ ir spec (some m) im false).1 := by
  constructor
  · intro ocv spec om im av ir₁ ir₂ h
    rw [ordem_avaliar_celula, ordem_avaliar_celula]
    exact max_le_max (le_refl _)
      (max_le_max (contrib_ir_absoluta_mono h)
        (contrib_ir_desvio_pct_mono im av h))
  · intro ir spec m im ocv₁ ocv₂ hc₁ ha₁ hc₂ ha₂ hdev
    rw [ordem_avaliar_celula, ordem_avaliar_celula,
      contrib_ocv_absoluta_boa hc₁ ha₁, contrib_ocv_absoluta_boa hc₂ ha₂]
    exact max_le_max (max_le_max (le_refl _) (contrib_ocv_desvio_mono hdev))
      (le_refl _)

theorem C8_monotonicidade_witness :
    ((10 : ℚ) ≤ 35
      ∧ status_pack_ordem
            (avaliar_celula_individual 3.7 10 SonySpecs none none true).1
          ≤ status_pack_ordem
              (avaliar_celula_individual 3.7 35 SonySpecs none none true).1)
    ∧ (SonySpecs.TENSAO_CORTE ≤ (3.7 : ℚ)
      ∧ OCV_ABSOLUTO_LIMIAR_RUIM ≤ (3.7 : ℚ)
      ∧ SonySpecs.TENSAO_CORTE ≤ (4.2 : ℚ)
      ∧ OCV_ABSOLUTO_LIMIAR_RUIM ≤ (4.2 : ℚ)
      ∧ |(3.7 : ℚ) - 3.7| ≤ |(4.2 : ℚ) - 3.7|
      ∧ status_pack_ordem (avaliar_celula_individual 3.7 16 SonySpecs
            (some 3.7) none false).1
          ≤ status_pack_ordem (avaliar_celula_individual 4.2 16 SonySpecs
              (some 3.7) none false).1) :=
  ⟨⟨by norm_num,
    C8_monotonicidade_amended.1 3.7 SonySpecs none none true 10 35
      (by norm_num)⟩,
   ⟨by norm_num [SonySpecs], by norm_num [OCV_ABSOLUTO_LIMIAR_RUIM],
    by norm_num [SonySpecs], by norm_num [OCV_ABSOLUTO_LIMIAR_RUIM],
    by norm_num,
    C8_monotonicidade_amended.2 16 SonySpecs 3.7 none 3.7 4.2
      (by norm_num [SonySpecs]) (by norm_num [OCV_ABSOLUTO_LIMIAR_RUIM])
      (by norm_num [SonySpecs]) (by norm_num [OCV_ABSOLUTO_LIMIAR_RUIM])
      (by norm_num)⟩⟩

/-- C1 counterexample: in Scenario A (Sony spec, eleven cells at 4.20V,
one at 3.00V, pack mean 4.10V, good IRs) the 3.00V cell is Ruim but its
only reason is the pack-deviation message, not the "recarga urgente"
absolute-low message (since `ocv < 3.00` is strict and 3.00 is not below
3.00), and a 4.20V cell is Monitorar, not Bom. -/
theorem C1_cenarioA_contraexemplo :
    ((List.replicate 11 (4.2 : ℚ) ++ [3]).sum / 12 = 41/10)
    ∧ avaliar_celula_individual 3 16 SonySpecs (some (41/10)) (some 16) false
        = (Status.Ruim, [Motivo.ocvAltoDesvio (11/10)])
    ∧ (avaliar_celula_individual 4.2 16 SonySpecs (some (41/10)) (some 16)
        false).1 = Status.Monitorar := by
  have e : avaliar_celula_individual 4.2 16 SonySpecs (some (41/10))
      (some 16) false = (Status.Monitorar, [Motivo.ocvDesvioModerado (1/10)]) := by
    norm_num [avaliar_celula_individual, fase_ocv_absoluta, fase_ocv_desvio,
      fase_ir_absoluta, fase_ir_desvio_pct, fase_motivo_padrao,
      SonySpecs, OCV_DIFF_LIMIAR_MONITOR, OCV_DIFF_LIMIAR_RUIM,
      OCV_ABSOLUTO_LIMIAR_RUIM, IR_LIMIAR_BOM_MAX, IR_LIMIAR_MONITOR_MAX,
      IR_LIMIAR_RUIM_MIN, IR_PCT_DIFF_LIMIAR_MONITOR,
      IR_PCT_DIFF_LIMIAR_RUIM, abs_of_nonneg, abs_of_nonpos]
    all_goals try simp
  refine ⟨by norm_num, ?_, by rw [e]⟩
  norm_num [avaliar_celula_individual, fase_ocv_absoluta, fase_ocv_desvio,
    fase_ir_absoluta, fase_ir_desvio_pct, fase_motivo_padrao,
    SonySpecs, OCV_DIFF_LIMIAR_MONITOR, OCV_DIFF_LIMIAR_RUIM,
    OCV_ABSOLUTO_LIMIAR_RUIM, IR_LIMIAR_BOM_MAX, IR_LIMIAR_MONITOR_MAX,
    IR_LIMIAR_RUIM_MIN, IR_PCT_DIFF_LIMIAR_MONITOR,
    IR_PCT_DIFF_LIMIAR_RUIM, abs_of_nonneg, abs_of_nonpos]
  try simp

/-- C1 amended: in Scenario A the 3.00V cell is Ruim via the
pack-deviation rule (reason "alto desvio da média do pack", deviation
1.10V), because the absolute-low rule requires `ocv < 3.00` strictly; the
remaining 4.20V cells are Monitorar via the moderate-deviation rule
(deviation exactly 0.10V, which exceeds 0.05 but not 0.10). -/
theorem C1_cenarioA_amended :
    ¬((3 : ℚ) < OCV_ABSOLUTO_LIMIAR_RUIM)
    ∧ avaliar_celula_individual 3 16 SonySpecs (some (41/10)) (some 16) false
        = (Status.Ruim, [Motivo.ocvAltoDesvio (11/10)])
    ∧ avaliar_celula_individual 4.2 16 SonySpecs (some (41/10)) (some 16)
        false = (Status.Monitorar, [Motivo.ocvDesvioModerado (1/10)]) := by
  refine ⟨by norm_num [OCV_ABSOLUTO_LIMIAR_RUIM], ?_, ?_⟩
  · norm_num [avaliar_celula_individual, fase_ocv_absoluta, fase_ocv_desvio,
      fase_ir_absoluta, fase_ir_desvio_pct, fase_motivo_padrao,
      SonySpecs, OCV_DIFF_LIMIAR_MONITOR, OCV_DIFF_LIMIAR_RUIM,
      OCV_ABSOLUTO_LIMIAR_RUIM, IR_LIMIAR_BOM_MAX, IR_LIMIAR_MONITOR_MAX,
      IR_LIMIAR_RUIM_MIN, IR_PCT_DIFF_LIMIAR_MONITOR,
      IR_PCT_DIFF_LIMIAR_RUIM, abs_of_nonneg, abs_of_nonpos]
    try simp
  · norm_num [avaliar_celula_individual, fase_ocv_absoluta, fase_ocv_desvio,
      fase_ir_absoluta, fase_ir_desvio_pct, fase_motivo_padrao,
      SonySpecs, OCV_DIFF_LIMIAR_MONITOR, OCV_DIFF_LIMIAR_RUIM,
      OCV_ABSOLUTO_LIMIAR_RUIM, IR_LIMIAR_BOM_MAX, IR_LIMIAR_MONITOR_MAX,
      IR_LIMIAR_RUIM_MIN, IR_PCT_DIFF_LIMIAR_MONITOR,
      IR_PCT_DIFF_LIMIAR_RUIM, abs_of_nonneg, abs_of_nonpos]
    try simp

/-- C2 counterexample: a Bom standalone cell with ir = 25 (so
20 ≤ 25 < 30) gets the softer "um pouco acima do ideal" reason, not the
"IR moderada, degradando" reason the claim attributes to this range. -/
theorem C2_ir_moderada_contraexemplo :
    (20 : ℚ) ≤ 25 ∧ (25 : ℚ) < 30
    ∧ avaliar_celula_individual 3.7 25 SonySpecs none none true
        = (Status.Monitorar, [Motivo.irAcimaIdeal 25]) := by
  refine ⟨by norm_num, by norm_num, ?_⟩
  norm_num [avaliar_celula_individual, fase_ocv_absoluta, fase_ocv_desvio,
    fase_ir_absoluta, fase_ir_desvio_pct, fase_motivo_padrao,
    SonySpecs, OCV_DIFF_LIMIAR_MONITOR, OCV_DIFF_LIMIAR_RUIM,
    OCV_ABSOLUTO_LIMIAR_RUIM, IR_LIMIAR_BOM_MAX, IR_LIMIAR_MONITOR_MAX,
    IR_LIMIAR_RUIM_MIN, IR_PCT_DIFF_LIMIAR_MONITOR,
    IR_PCT_DIFF_LIMIAR_RUIM, abs_of_nonneg, abs_of_nonpos]
  all_goals try simp

/-- C2 amended: for a still-Bom cell, 20 < ir < 30 escalates to Monitorar
with the softer "um pouco acima do ideal" reason; ir = 20 exactly fires
no IR branch; and the "IR moderada, degradando" branch (guard
`ir ≥ IR_LIMIAR_MONITOR_MAX = 30`, shadowed by the first `ir ≥ 30`
branch) is unreachable, so its reason is never recorded.  The three
branches remain mutually exclusive first-match if/elif branches, in the
order ≥ 30, ≥ 30, > 20. -/
theorem C2_ir_faixas_amended :
    (∀ (ir : ℚ) (sm : Status × List Motivo), 20 < ir → ir < 30 →
      sm.1 = Status.Bom →
      fase_ir_absoluta ir sm
        = (Status.Monitorar, sm.2 ++ [Motivo.irAcimaIdeal ir]))
    ∧ (∀ sm : Status × List Motivo, fase_ir_absoluta 20 sm = sm)
    ∧ ∀ (ocv ir : ℚ) (spec : CellSpecs) (om im : Option ℚ) (av : Bool)
        (x : ℚ),
        Motivo.irModerada x
          ∉ (avaliar_celula_individual ocv ir spec om im av).2 := by
  refine ⟨?_, ?_, fun ocv ir spec om im av x =>
    irModerada_nunca_registrada ocv ir spec om im av x⟩
  · intro ir sm h₁ h₂ hb
    unfold fase_ir_absoluta IR_LIMIAR_RUIM_MIN IR_LIMIAR_MONITOR_MAX
      IR_LIMIAR_BOM_MAX
    rw [if_neg (by simp only [ge_iff_le, not_le]; linarith),
      if_neg (by simp only [ge_iff_le, not_le]; linarith),
      if_pos (by norm_num; linarith), if_pos hb]
  · intro sm
    unfold fase_ir_absoluta IR_LIMIAR_RUIM_MIN IR_LIMIAR_MONITOR_MAX
      IR_LIMIAR_BOM_MAX
    rw [if_neg (by norm_num), if_neg (by norm_num), if_neg (by norm_num)]

theorem C2_ir_faixas_witness :
    ((20 : ℚ) < 25 ∧ (25 : ℚ) < 30
      ∧ fase_ir_absoluta 25 (Status.Bom, [])
          = (Status.Monitorar, [Motivo.irAcimaIdeal 25]))
    ∧ fase_ir_absoluta 20 (Status.Bom, []) = (Status.Bom, [])
    ∧ Motivo.irModerada 25
        ∉ (avaliar_celula_individual 3.7 25 SonySpecs none none true).2 :=
 by
  refine ⟨⟨by norm_num, by norm_num, ?_⟩,
    C2_ir_faixas_amended.2.1 (Status.Bom, []),
    C2_ir_faixas_amended.2.2 3.7 25 SonySpecs none none true 25⟩
  simpa using C2_ir_faixas_amended.1 25 (Status.Bom, []) (by norm_num)
    (by norm_num) rfl

/-- C3 counterexample: a CellSpec with cutoff 3.00V, nominal 3.20V, max
4.20V satisfies the ordering invariant, yet at N = 12 the derived
thresholds have monitor-min 42.0V above good-min 37.9V, breaking the
claimed chain. -/
theorem C3_invariante_contraexemplo :
    (CellSpecsEstreita.TENSAO_CORTE < CellSpecsEstreita.TENSAO_NOMINAL
      ∧ CellSpecsEstreita.TENSAO_NOMINAL < CellSpecsEstreita.TENSAO_CARGA_MAX
      ∧ (0 : ℤ) < 12)
    ∧ ¬((calculate_pack_specs CellSpecsEstreita 12).PACK_TENSAO_LIMIAR_MONITOR_MIN
          ≤ (calculate_pack_specs CellSpecsEstreita 12).PACK_TENSAO_LIMIAR_BOM_MIN) := by
  norm_num [CellSpecsEstreita, calculate_pack_specs]

/-- C3 amended: for every CellSpec with cutoff < nominal < max_charge and
N > 0, the chain critical-min = N·cutoff ≤ bad-min ≤ monitor-min holds and
good-min ≤ N·nominal holds; the remaining link monitor-min ≤ good-min
holds exactly when additionally nominal − cutoff ≥ 13/24 V (true of both
registry models, whose gaps are 1.20V and 0.85V). -/
theorem C3_invariante_amended (cell : CellSpecs) (N : ℤ)
    (h1 : cell.TENSAO_CORTE < cell.TENSAO_NOMINAL)
    (h2 : cell.TENSAO_NOMINAL < cell.TENSAO_CARGA_MAX)
    (hN : 0 < N)
    (hsep : 13/24 ≤ cell.TENSAO_NOMINAL - cell.TENSAO_CORTE) :
    (calculate_pack_specs cell N).PACK_TENSAO_LIMIAR_CRITICO_MIN
        = N * cell.TENSAO_CORTE
    ∧ (calculate_pack_specs cell N).PACK_TENSAO_LIMIAR_CRITICO_MIN
        ≤ (calculate_pack_specs cell N).PACK_TENSAO_LIMIAR_RUIM_MIN
    ∧ (calculate_pack_specs cell N).PACK_TENSAO_LIMIAR_RUIM_MIN
        ≤ (calculate_pack_specs cell N).PACK_TENSAO_LIMIAR_MONITOR_MIN
    ∧ (calculate_pack_specs cell N).PACK_TENSAO_LIMIAR_MONITOR_MIN
        ≤ (calculate_pack_specs cell N).PACK_TENSAO_LIMIAR_BOM_MIN
    ∧ (calculate_pack_specs cell N).PACK_TENSAO_LIMIAR_BOM_MIN
        ≤ N * cell.TENSAO_NOMINAL := by
  have hN' : (0 : ℚ) < (N : ℚ) := by exact_mod_cast hN
  have hmul : (N : ℚ) * (13/24) ≤ (N : ℚ)
      * (cell.TENSAO_NOMINAL - cell.TENSAO_CORTE) :=
    mul_le_mul_of_nonneg_left hsep (le_of_lt hN')
  unfold calculate_pack_specs
  dsimp only
  refine ⟨rfl, by nlinarith, by nlinarith, by nlinarith, by nlinarith⟩

theorem C3_invariante_witness :
    (SonySpecs.TENSAO_CORTE < SonySpecs.TENSAO_NOMINAL
      ∧ SonySpecs.TENSAO_NOMINAL < SonySpecs.TENSAO_CARGA_MAX
      ∧ (0 : ℤ) < 12
      ∧ 13/24 ≤ SonySpecs.TENSAO_NOMINAL - SonySpecs.TENSAO_CORTE)
    ∧ ((calculate_pack_specs SonySpecs 12).PACK_TENSAO_LIMIAR_CRITICO_MIN
          = 12 * SonySpecs.TENSAO_CORTE
        ∧ (calculate_pack_specs SonySpecs 12).PACK_TENSAO_LIMIAR_CRITICO_MIN
          ≤ (calculate_pack_specs SonySpecs 12).PACK_TENSAO_LIMIAR_RUIM_MIN
        ∧ (calculate_pack_specs SonySpecs 12).PACK_TENSAO_LIMIAR_RUIM_MIN
          ≤ (calculate_pack_specs SonySpecs 12).PACK_TENSAO_LIMIAR_MONITOR_MIN
        ∧ (calculate_pack_specs SonySpecs 12).PACK_TENSAO_LIMIAR_MONITOR_MIN
          ≤ (calculate_pack_specs SonySpecs 12).PACK_TENSAO_LIMIAR_BOM_MIN
        ∧ (calculate_pack_specs SonySpecs 12).PACK_TENSAO_LIMIAR_BOM_MIN
          ≤ 12 * SonySpecs.TENSAO_NOMINAL) :=
  ⟨⟨by norm_num [SonySpecs], by norm_num [SonySpecs], by norm_num,
    by norm_num [SonySpecs]⟩,
   C3_invariante_amended SonySpecs 12 (by norm_num [SonySpecs])
     (by norm_num [SonySpecs]) (by norm_num) (by norm_num [SonySpecs])⟩

/-- C4 counterexample: with `is_avulsa = false`, `ocv_media = some 4.0`
and `ir_media = None`, the evaluator neither fails nor skips all
pack-relative checks: it applies the OCV-deviation check (escalating the
4.20V cell to Ruim, whereas with no means at all the same cell is Bom). -/
theorem C4_baseline_parcial_contraexemplo :
    (avaliar_celula_individual 4.2 16 SonySpecs (some 4.0) none false).1
        = Status.Ruim
    ∧ (avaliar_celula_individual 4.2 16 SonySpecs none none false).1
        = Status.Bom := by
  constructor
  · norm_num [avaliar_celula_individual, fase_ocv_absoluta, fase_ocv_desvio,
      fase_ir_absoluta, fase_ir_desvio_pct, fase_motivo_padrao,
      SonySpecs, OCV_DIFF_LIMIAR_MONITOR, OCV_DIFF_LIMIAR_RUIM,
      OCV_ABSOLUTO_LIMIAR_RUIM, IR_LIMIAR_BOM_MAX, IR_LIMIAR_MONITOR_MAX,
      IR_LIMIAR_RUIM_MIN, IR_PCT_DIFF_LIMIAR_MONITOR,
      IR_PCT_DIFF_LIMIAR_RUIM, abs_of_nonneg, abs_of_nonpos]
    try simp
  · norm_num [avaliar_celula_individual, fase_ocv_absoluta, fase_ocv_desvio,
      fase_ir_absoluta, fase_ir_desvio_pct, fase_motivo_padrao,
      SonySpecs, OCV_DIFF_LIMIAR_MONITOR, OCV_DIFF_LIMIAR_RUIM,
      OCV_ABSOLUTO_LIMIAR_RUIM, IR_LIMIAR_BOM_MAX, IR_LIMIAR_MONITOR_MAX,
      IR_LIMIAR_RUIM_MIN, IR_PCT_DIFF_LIMIAR_MONITOR,
      IR_PCT_DIFF_LIMIAR_RUIM, abs_of_nonneg, abs_of_nonpos]
    try simp

/-- C4 amended: each pack-relative check is guarded only by the presence
(and, for IR, positivity) of its own mean; when only one mean is supplied
the evaluator silently applies exactly that one deviation check — an OCV
mean alone behaves as if the IR mean were the skipped value 0, an OCV
mean alone triggers the OCV-deviation escalation, and an IR mean alone
triggers the IR-percentage escalation.  No error is raised. -/
theorem C4_baseline_parcial_amended :
    (∀ (ocv ir : ℚ) (spec : CellSpecs) (m : ℚ),
      avaliar_celula_individual ocv ir spec (some m) none false
        = avaliar_celula_individual ocv ir spec (some m) (some 0) false)
    ∧ avaliar_celula_individual 4.2 16 SonySpecs (some 4.0) none false
        = (Status.Ruim, [Motivo.ocvAltoDesvio (1/5)])
    ∧ avaliar_celula_individual 3.7 19 SonySpecs none (some 14) false
        = (Status.Monitorar, [Motivo.irDesvioPctModerado (250/7)]) := by
  refine ⟨?_, ?_, ?_⟩
  · intro ocv ir spec m
    unfold avaliar_celula_individual
    rw [fase_ir_desvio_pct_none, fase_ir_desvio_pct_zero]
  · norm_num [avaliar_celula_individual, fase_ocv_absoluta, fase_ocv_desvio,
      fase_ir_absoluta, fase_ir_desvio_pct, fase_motivo_padrao,
      SonySpecs, OCV_DIFF_LIMIAR_MONITOR, OCV_DIFF_LIMIAR_RUIM,
      OCV_ABSOLUTO_LIMIAR_RUIM, IR_LIMIAR_BOM_MAX, IR_LIMIAR_MONITOR_MAX,
      IR_LIMIAR_RUIM_MIN, IR_PCT_DIFF_LIMIAR_MONITOR,
      IR_PCT_DIFF_LIMIAR_RUIM, abs_of_nonneg, abs_of_nonpos]
    all_goals try simp
  · norm_num [avaliar_celula_individual, fase_ocv_absoluta, fase_ocv_desvio,
      fase_ir_absoluta, fase_ir_desvio_pct, fase_motivo_padrao,
      SonySpecs, OCV_DIFF_LIMIAR_MONITOR, OCV_DIFF_LIMIAR_RUIM,
      OCV_ABSOLUTO_LIMIAR_RUIM, IR_LIMIAR_BOM_MAX, IR_LIMIAR_MONITOR_MAX,
      IR_LIMIAR_RUIM_MIN, IR_PCT_DIFF_LIMIAR_MONITOR,
      IR_PCT_DIFF_LIMIAR_RUIM, abs_of_nonneg, abs_of_nonpos]
    all_goals try simp

/-- C5 counterexample: `calculate_pack_specs` called with N = 0 does not
fail: it returns the all-zero PackSpecs computed by its formulas, with no
`InvalidConfiguration` error (the function has no error path at all). -/
theorem C5_sem_validacao_contraexemplo :
    calculate_pack_specs SonySpecs 0
      = { NUM_CELULAS_SERIE := 0, PACK_TENSAO_MAX := 0,
          PACK_TENSAO_NOMINAL := 0, PACK_TENSAO_CORTE := 0,
          PACK_TENSAO_LIMIAR_BOM_MIN := 0,
          PACK_TENSAO_LIMIAR_MONITOR_MIN := 0,
          PACK_TENSAO_LIMIAR_RUIM_MIN := 0,
          PACK_TENSAO_LIMIAR_CRITICO_MIN := 0 } := by
  norm_num [calculate_pack_specs, SonySpecs]

/-- C5 amended: `calculate_pack_specs` performs no validation of the
series count: for N ≤ 0 it succeeds and returns the same formulas'
values — an all-zero PackSpecs at N = 0 and, for N < 0 with a positive
max-charge voltage, a negative pack maximum voltage. -/
theorem C5_sem_validacao_amended (cell : CellSpecs) (N : ℤ) (hN : N < 0)
    (hpos : 0 < cell.TENSAO_CARGA_MAX) :
    (calculate_pack_specs cell N).PACK_TENSAO_MAX < 0 := by
  unfold calculate_pack_specs
  dsimp only
  exact mul_neg_of_neg_of_pos (by exact_mod_cast hN) hpos

theorem C5_sem_validacao_witness :
    ((-1 : ℤ) < 0 ∧ 0 < SonySpecs.TENSAO_CARGA_MAX)
    ∧ (calculate_pack_specs SonySpecs (-1)).PACK_TENSAO_MAX < 0 :=
  ⟨⟨by norm_num, by norm_num [SonySpecs]⟩,
   C5_sem_validacao_amended SonySpecs (-1) (by norm_num)
     (by norm_num [SonySpecs])⟩

/-- C6: `avaliar_pack_voltage` is a first-match if/elif ladder in the
order overcharge → below-cutoff → below-bad → below-monitor → below-good
→ Bom; each outcome occurs exactly when its guard holds and all earlier
guards fail, the reason is always single-valued, and a measured total of
pack max + 0.2 is Crítico with the overcharge reason for every PackSpecs. -/
theorem C6_pack_voltage_ladder (v : ℚ) (ps : PackSpecs) :
    (avaliar_pack_voltage v ps).2.length = 1
    ∧ (avaliar_pack_voltage v ps
          = (Status.Critico, [MotivoPack.acimaMaximo v ps.PACK_TENSAO_MAX])
        ↔ v > ps.PACK_TENSAO_MAX + 0.1)
    ∧ (avaliar_pack_voltage v ps
          = (Status.Critico,
              [MotivoPack.abaixoCorte v ps.PACK_TENSAO_LIMIAR_CRITICO_MIN])
        ↔ ¬(v > ps.PACK_TENSAO_MAX + 0.1)
            ∧ v < ps.PACK_TENSAO_LIMIAR_CRITICO_MIN)
    ∧ (avaliar_pack_voltage v ps = (Status.Ruim, [MotivoPack.muitoBaixa v])
        ↔ ¬(v > ps.PACK_TENSAO_MAX + 0.1)
            ∧ ¬(v < ps.PACK_TENSAO_LIMIAR_CRITICO_MIN)
            ∧ v < ps.PACK_TENSAO_LIMIAR_RUIM_MIN)
    ∧ (avaliar_pack_voltage v ps = (Status.Monitorar, [MotivoPack.baixa v])
        ↔ ¬(v > ps.PACK_TENSAO_MAX + 0.1)
            ∧ ¬(v < ps.PACK_TENSAO_LIMIAR_CRITICO_MIN)
            ∧ ¬(v < ps.PACK_TENSAO_LIMIAR_RUIM_MIN)
            ∧ v < ps.PACK_TENSAO_LIMIAR_MONITOR_MIN)
    ∧ (avaliar_pack_voltage v ps
          = (Status.Monitorar, [MotivoPack.abaixoNominal v])
        ↔ ¬(v > ps.PACK_TENSAO_MAX + 0.1)
            ∧ ¬(v < ps.PACK_TENSAO_LIMIAR_CRITICO_MIN)
            ∧ ¬(v < ps.PACK_TENSAO_LIMIAR_RUIM_MIN)
            ∧ ¬(v < ps.PACK_TENSAO_LIMIAR_MONITOR_MIN)
            ∧ v < ps.PACK_TENSAO_LIMIAR_BOM_MIN)
    ∧ (avaliar_pack_voltage v ps = (Status.Bom, [MotivoPack.dentroLimites v])
        ↔ ¬(v > ps.PACK_TENSAO_MAX + 0.1)
            ∧ ¬(v < ps.PACK_TENSAO_LIMIAR_CRITICO_MIN)
            ∧ ¬(v < ps.PACK_TENSAO_LIMIAR_RUIM_MIN)
            ∧ ¬(v < ps.PACK_TENSAO_LIMIAR_MONITOR_MIN)
            ∧ ¬(v < ps.PACK_TENSAO_LIMIAR_BOM_MIN))
    ∧ avaliar_pack_voltage (ps.PACK_TENSAO_MAX + 0.2) ps
        = (Status.Critico, [MotivoPack.acimaMaximo (ps.PACK_TENSAO_MAX + 0.2)
            ps.PACK_TENSAO_MAX]) := by
  have hlast : avaliar_pack_voltage (ps.PACK_TENSAO_MAX + 0.2) ps
      = (Status.Critico, [MotivoPack.acimaMaximo (ps.PACK_TENSAO_MAX + 0.2)
          ps.PACK_TENSAO_MAX]) := by
    unfold avaliar_pack_voltage
    rw [if_pos (by norm_num)]
  refine ⟨?_, ?_, ?_, ?_, ?_, ?_, ?_, hlast⟩ <;>
    (unfold avaliar_pack_voltage; split_ifs <;> simp_all)

end ReLife
